import Mathlib

/-!
# sunxi PWM backlight driver (`drivers/video/backlight/sunxi_pwm_bl.c`)

A shallow embedding of the driver's brightness-to-duty-cycle transform, of its
power sequencing and of its attach path, followed by theorems about them.

Conventions of the embedding:

* `unsigned int` values are natural numbers, sums, differences and products of
  them are reduced modulo `2^32` explicitly; `int` values are integers;
* a function of the driver that may divide by zero returns an `Option`,
  `none` standing for the undefined division;
* every call the driver makes into the GPIO layer, the PWM layer or a board
  hook is appended to a list of `Call`s, in program order, each argument with
  the value it has after conversion to the type of the parameter;
* a board hook may answer differently each time it is called: it is a function
  of the number of calls made to it before and of the brightness it is given.
-/

namespace SunxiPwmBl

/-! ## Machine integers -/

/-- Conversion of an `int` to `unsigned int` (reduction modulo `2^32`). -/
def to_uint (x : Int) : Nat := (x % 4294967296).toNat

/-- Conversion of an `unsigned int` to `int` (two's complement, as gcc does). -/
def to_int (n : Nat) : Int :=
  if n < 2147483648 then (n : Int) else (n : Int) - 4294967296

/-- The `unsigned int` difference `a - b` of two `unsigned int` values. -/
def usub (a b : Nat) : Nat := (a + 4294967296 - b) % 4294967296

/-- The `unsigned int` product `a * b`. -/
def umul (a b : Nat) : Nat := (a * b) % 4294967296

/-- The `unsigned int` sum `a + b`. -/
def uadd (a b : Nat) : Nat := (a + b) % 4294967296

/-! ## Calls into the collaborators -/

/-- One call made by the driver into the GPIO layer, the PWM layer, the
backlight core or a board hook, with the arguments that matter. -/
inductive Call where
  | gpio_request (gpio : Nat)
  | gpio_direction_output (gpio : Nat) (value : Int)
  | gpio_set_value (gpio : Nat) (value : Int)
  | gpio_free (gpio : Nat)
  | pwm_request (pwm_id : Int)
  | pwm_set_period (period : Nat)
  | pwm_set_polarity (polarity : Int)
  | pwm_config (duty_ns : Int) (period_ns : Int)
  | pwm_enable
  | pwm_disable
  | pwm_free
  | backlight_device_register
  | backlight_device_unregister
  | init_hook
  | notify_hook (brightness : Int)
  | notify_after_hook (brightness : Int)
  | exit_hook
  deriving DecidableEq, Repr

/-! ## Data model -/

/-- The driver's private data, `struct pwm_bl_data`.  The `pwm` and `dev`
pointers are left out; a hook pointer is `none`/`false` when it is null.  The
`notify` hook is board code: what it returns may depend on anything, so it is
a function of the number of calls made to it before (see
`backlight_device.notify_seq`) and of the brightness it is given. -/
structure pwm_bl_data where
  period : Nat
  lth_brightness : Nat
  enabled : Bool
  enable_gpio_hd : Nat
  lcd_power_hd : Nat
  scale : Nat
  legacy : Bool
  notify : Option (Nat → Int → Int)
  notify_after : Bool
  check_fb : Bool
  exit : Bool

/-- The `unsigned int` fields of the driver data hold `unsigned int` values. -/
def pwm_bl_data.wf (pb : pwm_bl_data) : Prop :=
  pb.period < 4294967296 ∧ pb.lth_brightness < 4294967296 ∧ pb.scale < 4294967296 ∧
    pb.enable_gpio_hd < 4294967296 ∧ pb.lcd_power_hd < 4294967296

instance (pb : pwm_bl_data) : Decidable pb.wf := by
  unfold pwm_bl_data.wf; infer_instance

/-- The fields of `struct backlight_properties` the driver reads. -/
structure backlight_properties where
  brightness : Int
  max_brightness : Int
  power : Int
  fb_blank : Int
  state : Nat
  deriving DecidableEq, Repr

/-- A `struct backlight_device`: the properties held by the backlight core and
the driver data reached through `bl_get_data`.  `notify_seq` is not a field of
the C structure: it counts the calls made so far to the `notify` hook, so that
the hook can answer each call on its own. -/
structure backlight_device where
  props : backlight_properties
  data : pwm_bl_data
  notify_seq : Nat

/-- Modelled from the spec: the kernel constant `FB_BLANK_UNBLANK` of
`linux/fb.h`, a header that is not part of the sources at hand; it is the
power level of a display that is not blanked. -/
def FB_BLANK_UNBLANK : Int := 0

/-- Modelled from the spec: the kernel constant `BL_CORE_FBBLANK` of
`linux/backlight.h`, a header that is not part of the sources at hand; it is
the state bit the backlight core sets while the framebuffer is blanked. -/
def BL_CORE_FBBLANK : Nat := 2

/-! ## Power sequencing -/

/-- The function `pwm_backlight_power_on`: the new driver data and the calls made. -/
def pwm_backlight_power_on (pb : pwm_bl_data) (_brightness : Int) :
    pwm_bl_data × List Call :=
  if pb.enabled then (pb, [])
  else
    ({ pb with enabled := true },
      [Call.gpio_set_value pb.enable_gpio_hd 1, Call.pwm_enable])

/-- The function `pwm_backlight_power_off`: the new driver data and the calls
made.  `pwm_config` takes its period as an `int`, to which the `unsigned int`
`pb->period` is converted. -/
def pwm_backlight_power_off (pb : pwm_bl_data) : pwm_bl_data × List Call :=
  if !pb.enabled then (pb, [])
  else
    ({ pb with enabled := false },
      [Call.pwm_config 0 (to_int pb.period), Call.pwm_disable,
       Call.gpio_set_value pb.enable_gpio_hd 0])

/-! ## Duty cycle -/

/-- The function `compute_duty_cycle`.  The expression
`(duty_cycle * (pb->period - lth) / pb->scale) + lth` is evaluated in
`unsigned int` and converted to the `int` result; `none` is the division by a
zero `scale`. -/
def compute_duty_cycle (pb : pwm_bl_data) (brightness : Int) : Option Int :=
  let lth := pb.lth_brightness
  let duty_cycle := brightness
  if pb.scale = 0 then none
  else
    some (to_int (uadd (umul (to_uint duty_cycle) (usub pb.period lth) / pb.scale) lth))

/-- The contract of `compute_duty_cycle` in the words of the specification:
`brightness * (period - lth_brightness) / scale + lth_brightness`, the product
and the sum being exact integers and the division truncating. -/
def spec_duty_cycle (pb : pwm_bl_data) (brightness : Int) : Int :=
  Int.tdiv (brightness * ((pb.period : Int) - (pb.lth_brightness : Int))) (pb.scale : Int) +
    (pb.lth_brightness : Int)

/-! ## Brightness update -/

/-- What an entry point returns: the backlight device afterwards, the calls
made in order, and the C return value. -/
structure Outcome where
  bl : backlight_device
  calls : List Call
  ret : Int

/-- The blank test of `pwm_backlight_update_status`. -/
def is_blanked (props : backlight_properties) : Bool :=
  props.power != FB_BLANK_UNBLANK || props.fb_blank != FB_BLANK_UNBLANK ||
    (props.state &&& BL_CORE_FBBLANK) != 0

/-- The brightness after the blank test and the `notify` hook, that is the
value of the local `brightness` at the test `brightness > 0`. -/
def effective_brightness (bl : backlight_device) : Int :=
  let brightness := if is_blanked bl.props then 0 else bl.props.brightness
  match bl.data.notify with
  | some f => f bl.notify_seq brightness
  | none => brightness

/-- The calls of the `notify` hook made ahead of the power transition. -/
def notify_calls (bl : backlight_device) : List Call :=
  let brightness := if is_blanked bl.props then 0 else bl.props.brightness
  match bl.data.notify with
  | some _ => [Call.notify_hook brightness]
  | none => []

/-- The number of calls made to the `notify` hook once an entry point that
calls it when installed has run. -/
def notify_seq_after (bl : backlight_device) : Nat :=
  match bl.data.notify with
  | some _ => bl.notify_seq + 1
  | none => bl.notify_seq

/-- The calls of the `notify_after` hook made after the power transition. -/
def notify_after_calls (pb : pwm_bl_data) (brightness : Int) : List Call :=
  if pb.notify_after then [Call.notify_after_hook brightness] else []

/-- The function `pwm_backlight_update_status`.  `pwm_config` takes its period
as an `int`, to which the `unsigned int` `pb->period` is converted. -/
def pwm_backlight_update_status (bl : backlight_device) : Option Outcome :=
  let pb := bl.data
  let brightness := bl.props.brightness
  let brightness := if is_blanked bl.props then 0 else brightness
  let (brightness, pre) :=
    match pb.notify with
    | some f => (f bl.notify_seq brightness, [Call.notify_hook brightness])
    | none => (brightness, [])
  if brightness > 0 then
    match compute_duty_cycle pb brightness with
    | none => none
    | some duty_cycle =>
      let r := pwm_backlight_power_on pb brightness
      some { bl := { bl with data := r.1, notify_seq := notify_seq_after bl },
             calls := pre ++ [Call.pwm_config duty_cycle (to_int pb.period)] ++ r.2 ++
               notify_after_calls pb brightness,
             ret := 0 }
  else
    let r := pwm_backlight_power_off pb
    some { bl := { bl with data := r.1, notify_seq := notify_seq_after bl },
           calls := pre ++ r.2 ++ notify_after_calls pb brightness,
           ret := 0 }


/-- Modelled from the spec: `backlight_update_status` of `linux/backlight.h`, a
header that is not part of the sources at hand; it runs the `update_status`
operation of the device, here `pwm_backlight_update_status` ("the same
update() path"). -/
def backlight_update_status (bl : backlight_device) : Option Outcome :=
  pwm_backlight_update_status bl

/-! ## Suspend, resume, shutdown, remove -/

/-- The function `pwm_backlight_suspend`; the value the `notify` hook returns
is dropped, as in the source. -/
def pwm_backlight_suspend (bl : backlight_device) : Outcome :=
  let pb := bl.data
  let pre :=
    match pb.notify with
    | some _ => [Call.notify_hook 0]
    | none => []
  let r := pwm_backlight_power_off pb
  { bl := { bl with data := r.1, notify_seq := notify_seq_after bl },
    calls := pre ++ r.2 ++ notify_after_calls pb 0,
    ret := 0 }

/-- The function `pwm_backlight_resume`. -/
def pwm_backlight_resume (bl : backlight_device) : Option Outcome :=
  match backlight_update_status bl with
  | none => none
  | some out => some { out with ret := 0 }

/-- The function `pwm_backlight_shutdown` (it returns nothing; `ret` is 0). -/
def pwm_backlight_shutdown (bl : backlight_device) : Outcome :=
  let r := pwm_backlight_power_off bl.data
  { bl := { bl with data := r.1 }, calls := r.2, ret := 0 }

/-- The function `pwm_backlight_remove`. -/
def pwm_backlight_remove (bl : backlight_device) : Outcome :=
  let pb := bl.data
  let r := pwm_backlight_power_off pb
  { bl := { bl with data := r.1 },
    calls := [Call.backlight_device_unregister] ++ r.2 ++
      (if pb.exit then [Call.exit_hook] else []) ++
      (if pb.legacy then [Call.pwm_free] else []),
    ret := 0 }

/-! ## The devices, as a recording double -/

/-- Modelled from the spec: the GPIO lines and the PWM device behind the
interfaces `set_value`, `set_direction_output`, `configure`, `set_period`,
`enable` and `disable`, which are kernel code not at hand.  Each call is
infallible and stores what it is given: the level of a line is the last value
written to it, the PWM output is enabled after `enable` and disabled after
`disable`, and the configured duty cycle and period are those of the last
`configure`, as the `int` values it was given. -/
structure Hw where
  gpio : Nat → Int
  pwm_enabled : Bool
  pwm_duty_ns : Int
  pwm_period_ns : Int

/-- Modelled from the spec: the effect of one call on the devices (see `Hw`);
requests, releases and hooks leave the lines and the PWM output as they are. -/
def Hw.apply (h : Hw) : Call → Hw
  | Call.gpio_set_value g v => { h with gpio := fun n => if n = g then v else h.gpio n }
  | Call.gpio_direction_output g v =>
      { h with gpio := fun n => if n = g then v else h.gpio n }
  | Call.pwm_config d p => { h with pwm_duty_ns := d, pwm_period_ns := p }
  | Call.pwm_set_period p => { h with pwm_period_ns := (p : Int) }
  | Call.pwm_enable => { h with pwm_enabled := true }
  | Call.pwm_disable => { h with pwm_enabled := false }
  | _ => h

/-- The devices after a list of calls, applied in order. -/
def Hw.run (h : Hw) (calls : List Call) : Hw := calls.foldl Hw.apply h

/-- The driver together with the devices it drives. -/
structure Sys where
  bl : backlight_device
  hw : Hw

/-- An entry point invoked by the host framework.  `update props` is a write
of the brightness, power and blank properties followed by the update call. -/
inductive Op where
  | update (props : backlight_properties)
  | suspend
  | resume
  | shutdown

/-- One entry point run on the system: the driver code runs and its calls
reach the devices in order.  `none` when the driver code divides by zero. -/
def Sys.step (s : Sys) : Op → Option Sys
  | Op.update props =>
      match pwm_backlight_update_status { s.bl with props := props } with
      | none => none
      | some out => some { bl := out.bl, hw := s.hw.run out.calls }
  | Op.suspend =>
      let out := pwm_backlight_suspend s.bl
      some { bl := out.bl, hw := s.hw.run out.calls }
  | Op.resume =>
      match pwm_backlight_resume s.bl with
      | none => none
      | some out => some { bl := out.bl, hw := s.hw.run out.calls }
  | Op.shutdown =>
      let out := pwm_backlight_shutdown s.bl
      some { bl := out.bl, hw := s.hw.run out.calls }

/-- A sequence of entry points run in order. -/
def Sys.run_ops (s : Sys) : List Op → Option Sys
  | [] => some s
  | op :: ops =>
      match s.step op with
      | none => none
      | some s1 => s1.run_ops ops

/-- The state invariant of the data model, on the driver flag and the devices:
ON means the enable line is 1 and the PWM output is enabled, OFF means the
enable line is 0, the PWM output is disabled and its duty cycle is 0. -/
def Sys.inv (s : Sys) : Prop :=
  (s.bl.data.enabled = true →
    s.hw.gpio s.bl.data.enable_gpio_hd = 1 ∧ s.hw.pwm_enabled = true) ∧
  (s.bl.data.enabled = false →
    s.hw.gpio s.bl.data.enable_gpio_hd = 0 ∧ s.hw.pwm_enabled = false ∧
      s.hw.pwm_duty_ns = 0)

instance (s : Sys) : Decidable s.inv := by
  unfold Sys.inv; infer_instance

/-- The state set up at attachment, as far as the driver establishes it:
the flag is false, the enable line was driven 0 and the PWM output is not
enabled. -/
def Sys.attached (s : Sys) : Prop :=
  s.bl.data.enabled = false ∧ s.hw.gpio s.bl.data.enable_gpio_hd = 0 ∧
    s.hw.pwm_enabled = false

instance (s : Sys) : Decidable s.attached := by
  unfold Sys.attached; infer_instance

/-! ## Attachment -/

/-- Modelled from the spec: `struct platform_pwm_backlight_data`, declared in
a header that is not part of the sources at hand.  The fields are those the
driver reads: the PWM channel id, the polarity, the period, the brightness
floor, the default and the maximum brightness, the two GPIO lines and the
board hooks (`init` holds the value the hook returns when it is installed). -/
structure platform_pwm_backlight_data where
  pwm_id : Int
  max_brightness : Nat
  dft_brightness : Nat
  lth_brightness : Nat
  pwm_period_ns : Nat
  polarity : Int
  lcd_power : Nat
  enable_gpio : Nat
  init : Option Int
  notify : Option (Nat → Int → Int)
  notify_after : Bool
  check_fb : Bool
  exit : Bool

/-- Modelled from the spec: what `script_get_item` hands back for one key of
the section `pwmbl_para` of the board's key/value store (kernel code not at
hand): nothing usable, an integer, a string or a GPIO line. -/
inductive script_item where
  | invalid
  | int (val : Int)
  | str
  | pio (gpio : Nat)

/-- The integer stored under a key, when there is one. -/
def script_item.int_val : script_item → Option Int
  | script_item.int v => some v
  | _ => none

/-- The GPIO line stored under a key, when there is one. -/
def script_item.pio_gpio : script_item → Option Nat
  | script_item.pio g => some g
  | _ => none

/-- The function `pwm_backlight_parse_sysconfig`: every missing field is 0,
the maximum brightness is 255; `none` is the division by a zero `pwm_freq`. -/
def pwm_backlight_parse_sysconfig (script : String → script_item) :
    Option platform_pwm_backlight_data :=
  let pwm_id := ((script "pwm_ch").int_val).getD 0
  let polarity := ((script "pwm_pol").int_val).getD 0
  let period? : Option Nat :=
    match (script "pwm_freq").int_val with
    | some v => if v = 0 then none else some (to_uint (Int.tdiv (1000 * 1000 * 1000) v))
    | none => some 0
  let lth := to_uint (((script "lth_brightness").int_val).getD 0)
  let dft := to_uint (((script "dft_brightness").int_val).getD 0)
  let lcd_power := ((script "lcd_power").pio_gpio).getD 0
  let enable_gpio := ((script "bl_enable").pio_gpio).getD 0
  match period? with
  | none => none
  | some period =>
    some { pwm_id := pwm_id, max_brightness := 255, dft_brightness := dft,
           lth_brightness := lth, pwm_period_ns := period, polarity := polarity,
           lcd_power := lcd_power, enable_gpio := enable_gpio, init := none,
           notify := none, notify_after := false, check_fb := false, exit := false }

/-- What the collaborators answer during one attachment: the key/value store,
whether the allocation succeeds, which GPIO numbers are valid, the value each
of the two `gpio_request` calls returns, the error of `pwm_request` if it
fails, the period the PWM device reports, and the error of
`backlight_device_register` if it fails. -/
structure ProbeEnv where
  script : String → script_item
  alloc_ok : Bool
  gpio_is_valid : Nat → Bool
  gpio_request_lcd_power : Int
  gpio_request_bl_enable : Int
  pwm_request_err : Option Int
  pwm_get_period : Nat
  register_err : Option Int

/-- What `pwm_backlight_probe` leaves behind: its return value, the calls it
made in order, and the registered device when it succeeded. -/
structure ProbeResult where
  ret : Int
  calls : List Call
  bl : Option backlight_device

/-- The error number `ENOMEM`. -/
def ENOMEM : Int := 12

/-- The label `err_alloc` of `pwm_backlight_probe`. -/
def probe_err_alloc (data : platform_pwm_backlight_data) (calls : List Call) (ret : Int) :
    ProbeResult :=
  { ret := ret,
    calls := calls ++ (if data.exit then [Call.exit_hook] else []) ++
      [Call.gpio_free data.enable_gpio],
    bl := none }

/-- The part of `pwm_backlight_probe` that follows a successful `pwm_request`:
the period, the floor, the polarity, the registration and the first update.
`none` is a division by zero. -/
def probe_after_pwm (env : ProbeEnv) (data : platform_pwm_backlight_data)
    (pb : pwm_bl_data) (calls : List Call) : Option ProbeResult :=
  let period := env.pwm_get_period
  let set_period := period = 0 ∧ data.pwm_period_ns > 0
  let calls := calls ++ (if set_period then [Call.pwm_set_period data.pwm_period_ns] else [])
  let period := if set_period then data.pwm_period_ns else period
  if pb.scale = 0 then none
  else
    let pb := { pb with period := period,
                        lth_brightness := umul data.lth_brightness (period / pb.scale) }
    let calls := calls ++ [Call.pwm_set_polarity data.polarity,
                           Call.backlight_device_register]
    match env.register_err with
    | some e => some (probe_err_alloc data calls e)
    | none =>
      let dft_brightness :=
        if data.dft_brightness > data.max_brightness then data.max_brightness
        else data.dft_brightness
      let bl : backlight_device :=
        { props := { brightness := to_int dft_brightness,
                     max_brightness := to_int data.max_brightness,
                     power := 0, fb_blank := 0, state := 0 },
          data := pb, notify_seq := 0 }
      match backlight_update_status bl with
      | none => none
      | some out => some { ret := 0, calls := calls ++ out.calls, bl := some out.bl }

/-- The part of `pwm_backlight_probe` from the enable GPIO on. -/
def probe_after_lcd_power (env : ProbeEnv) (data : platform_pwm_backlight_data)
    (pb : pwm_bl_data) (calls : List Call) : Option ProbeResult :=
  let requested := env.gpio_is_valid data.enable_gpio
  let calls := calls ++ (if requested then [Call.gpio_request data.enable_gpio] else [])
  if requested ∧ env.gpio_request_bl_enable ≠ 0 then
    some (probe_err_alloc data calls env.gpio_request_bl_enable)
  else
    let pb := if requested then { pb with enable_gpio_hd := data.enable_gpio } else pb
    let calls := calls ++
      (if requested then [Call.gpio_direction_output data.enable_gpio 0] else [])
    let pb := { pb with legacy := true }
    let calls := calls ++ [Call.pwm_request data.pwm_id]
    match env.pwm_request_err with
    | some e => some (probe_err_alloc data calls e)
    | none => probe_after_pwm env data pb calls

/-- The function `pwm_backlight_probe`.  `pdata` is the platform data of the
device, `none` when the board gives none and the key/value store is parsed. -/
def pwm_backlight_probe (env : ProbeEnv) (pdata : Option platform_pwm_backlight_data) :
    Option ProbeResult :=
  let data? :=
    match pdata with
    | some d => some d
    | none => pwm_backlight_parse_sysconfig env.script
  match data? with
  | none => none
  | some data =>
    let calls : List Call :=
      match data.init with
      | some _ => [Call.init_hook]
      | none => []
    let init_ret := (data.init).getD 0
    if init_ret < 0 then some { ret := init_ret, calls := calls, bl := none }
    else if !env.alloc_ok then some (probe_err_alloc data calls (-ENOMEM))
    else
      let pb : pwm_bl_data :=
        { period := 0, lth_brightness := 0, enabled := false, enable_gpio_hd := 0,
          lcd_power_hd := 0, scale := data.max_brightness, legacy := false,
          notify := data.notify, notify_after := data.notify_after,
          check_fb := data.check_fb, exit := data.exit }
      let requested := env.gpio_is_valid data.lcd_power
      let calls := calls ++ (if requested then [Call.gpio_request data.lcd_power] else [])
      if requested ∧ env.gpio_request_lcd_power ≠ 0 then
        some (probe_err_alloc data calls env.gpio_request_lcd_power)
      else
        let pb := if requested then { pb with lcd_power_hd := data.lcd_power } else pb
        let calls := calls ++
          (if requested then [Call.gpio_direction_output data.lcd_power 1] else [])
        probe_after_lcd_power env data pb calls

/-- The GPIO lines a list of calls requests. -/
def requested_gpios : List Call → List Nat
  | [] => []
  | Call.gpio_request g :: cs => g :: requested_gpios cs
  | _ :: cs => requested_gpios cs

/-- The GPIO lines a list of calls releases. -/
def freed_gpios : List Call → List Nat
  | [] => []
  | Call.gpio_free g :: cs => g :: freed_gpios cs
  | _ :: cs => freed_gpios cs

/-- A board configuration used in examples: a 1 kHz PWM, 255 levels, no floor. -/
def pb_1khz : pwm_bl_data :=
  { period := 1000000, lth_brightness := 0, enabled := false, enable_gpio_hd := 11,
    lcd_power_hd := 10, scale := 255, legacy := true, notify := none,
    notify_after := false, check_fb := false, exit := false }

/-- A board configuration used in examples: a 50 Hz PWM, 255 levels, no floor. -/
def pb_50hz : pwm_bl_data := { pb_1khz with period := 20000000 }



/-- A board hook that keeps the backlight at a minimum level of 10, at every call. -/
def notify_min_level (_seq : Nat) (brightness : Int) : Int :=
  if brightness < 10 then 10 else brightness

/-- Properties of a device that is not blanked, with the given brightness. -/
def props_unblanked (brightness : Int) : backlight_properties :=
  { brightness := brightness, max_brightness := 255, power := 0, fb_blank := 0, state := 0 }

/-- Properties of a device powered down (`FB_BLANK_POWERDOWN`), with the given brightness. -/
def props_powerdown (brightness : Int) : backlight_properties :=
  { brightness := brightness, max_brightness := 255, power := 4, fb_blank := 0, state := 0 }

/-- Devices at rest: every line at 0, the PWM output disabled, duty cycle 0. -/
def hw_rest : Hw :=
  { gpio := fun _ => 0, pwm_enabled := false, pwm_duty_ns := 0, pwm_period_ns := 0 }

/-- The 1 kHz board just attached, in state OFF, on devices at rest. -/
def sys_1khz : Sys :=
  { bl := { props := props_unblanked 0, data := pb_1khz, notify_seq := 0 }, hw := hw_rest }

/-- The 1 kHz board attached in state OFF on a PWM device whose duty cycle was
left at 500000 by an earlier user; the enable line is 0 and the output disabled. -/
def sys_stale_duty : Sys :=
  { bl := { props := props_unblanked 0, data := pb_1khz, notify_seq := 0 },
    hw := { hw_rest with pwm_duty_ns := 500000 } }

/-- A board whose PWM period is 3000000000 ns, above the range of `int`, in
state ON. -/
def pb_slow_on : pwm_bl_data := { pb_1khz with period := 3000000000, enabled := true }

/-- The board of `pb_slow_on` in state OFF, on devices at rest. -/
def sys_slow : Sys :=
  { bl := { props := props_unblanked 0, data := { pb_slow_on with enabled := false },
            notify_seq := 0 },
    hw := hw_rest }

/-- A key/value store with `pwm_freq = -3`, default brightness 100, the panel
power on line 10 and the backlight enable on line 11. -/
def script_neg_freq (key : String) : script_item :=
  if key = "pwm_freq" then script_item.int (-3)
  else if key = "dft_brightness" then script_item.int 100
  else if key = "lcd_power" then script_item.pio 10
  else if key = "bl_enable" then script_item.pio 11
  else script_item.invalid

/-- A board with the panel power on line 10, the backlight enable on line 11,
PWM channel 0 at 1 kHz, and no hooks. -/
def board_data : platform_pwm_backlight_data :=
  { pwm_id := 0, max_brightness := 255, dft_brightness := 150, lth_brightness := 0,
    pwm_period_ns := 1000000, polarity := 1, lcd_power := 10, enable_gpio := 11,
    init := none, notify := none, notify_after := false, check_fb := false,
    exit := false }

/-- Collaborators that grant everything, with every GPIO number below 256 valid. -/
def env_ok : ProbeEnv :=
  { script := fun _ => script_item.invalid, alloc_ok := true,
    gpio_is_valid := fun g => decide (g < 256), gpio_request_lcd_power := 0,
    gpio_request_bl_enable := 0, pwm_request_err := none, pwm_get_period := 0,
    register_err := none }

/-- The error number `ENODEV`. -/
def ENODEV : Int := 19

/-- The error number `EBUSY`. -/
def EBUSY : Int := 16

/-- Collaborators that grant everything, over the key/value store `script_neg_freq`. -/
def env_neg_freq : ProbeEnv := { env_ok with script := script_neg_freq }

/-- Collaborators that grant the two GPIO lines and refuse the PWM channel. -/
def env_pwm_fails : ProbeEnv := { env_ok with pwm_request_err := some (-ENODEV) }

/-- Collaborators that refuse the panel-power GPIO line. -/
def env_lcd_power_fails : ProbeEnv := { env_ok with gpio_request_lcd_power := -EBUSY }

/-- Collaborators that grant the GPIO lines and the PWM channel and refuse the
registration of the backlight device. -/
def env_register_fails : ProbeEnv := { env_ok with register_err := some (-ENOMEM) }


/-! ## Shared lemmas on the duty cycle -/

theorem to_uint_natCast (n : Nat) : to_uint (n : Int) = n % 4294967296 := by
  unfold to_uint
  omega

theorem usub_of_le (a b : Nat) (h : b ≤ a) : usub a b = (a - b) % 4294967296 := by
  unfold usub
  omega

theorem to_int_of_lt (n : Nat) (h : n < 2147483648) : to_int n = (n : Int) := by
  unfold to_int
  simp [h]

theorem spec_duty_cycle_natCast (pb : pwm_bl_data) (n : Nat)
    (hl : pb.lth_brightness ≤ pb.period) :
    spec_duty_cycle pb (n : Int) =
      ((n * (pb.period - pb.lth_brightness) / pb.scale + pb.lth_brightness : Nat) : Int) := by
  unfold spec_duty_cycle
  have h1 : ((pb.period : Int) - (pb.lth_brightness : Int)) =
      ((pb.period - pb.lth_brightness : Nat) : Int) := by omega
  rw [h1, ← Int.natCast_mul]
  rfl

theorem compute_duty_cycle_natCast (pb : pwm_bl_data) (n : Nat) (hs : 0 < pb.scale)
    (hl : pb.lth_brightness ≤ pb.period)
    (hprod : n * (pb.period - pb.lth_brightness) < 4294967296)
    (hres : n * (pb.period - pb.lth_brightness) / pb.scale + pb.lth_brightness < 2147483648) :
    compute_duty_cycle pb (n : Int) =
      some ((n * (pb.period - pb.lth_brightness) / pb.scale + pb.lth_brightness : Nat) : Int) := by
  have hm : umul (to_uint (n : Int)) (usub pb.period pb.lth_brightness) =
      n * (pb.period - pb.lth_brightness) := by
    rw [to_uint_natCast, usub_of_le _ _ hl]
    unfold umul
    rw [← Nat.mul_mod]
    exact Nat.mod_eq_of_lt hprod
  have ha : uadd (n * (pb.period - pb.lth_brightness) / pb.scale) pb.lth_brightness =
      n * (pb.period - pb.lth_brightness) / pb.scale + pb.lth_brightness := by
    unfold uadd
    exact Nat.mod_eq_of_lt (Nat.lt_trans hres (by decide))
  unfold compute_duty_cycle
  simp only [hm, ha]
  rw [if_neg (by omega), to_int_of_lt _ hres]

/-! ## Duty cycle: the contract, the end points, monotonicity -/

/-- C1, as amended: with `scale > 0`, `lth_brightness <= period` and a
brightness in `[0, scale]`, `compute_duty_cycle` returns the exact integer
`brightness * (period - lth_brightness) / scale + lth_brightness` (truncating
division) whenever the product is below `2^32` and that integer is below
`2^31`, the ranges of the `unsigned int` arithmetic and of the `int` result. -/
theorem compute_duty_cycle_exact (pb : pwm_bl_data) (brightness : Int)
    (hs : 0 < pb.scale) (hl : pb.lth_brightness ≤ pb.period)
    (h0 : 0 ≤ brightness) (h1 : brightness ≤ (pb.scale : Int))
    (hprod : brightness * ((pb.period : Int) - (pb.lth_brightness : Int)) < 4294967296)
    (hres : spec_duty_cycle pb brightness < 2147483648) :
    compute_duty_cycle pb brightness = some (spec_duty_cycle pb brightness) := by
  obtain ⟨n, rfl⟩ := Int.eq_ofNat_of_zero_le h0
  have hspec := spec_duty_cycle_natCast pb n hl
  rw [hspec] at hres ⊢
  have hd : ((pb.period : Int) - (pb.lth_brightness : Int)) =
      ((pb.period - pb.lth_brightness : Nat) : Int) := by omega
  rw [hd, ← Int.natCast_mul] at hprod
  exact compute_duty_cycle_natCast pb n hs hl (by exact_mod_cast hprod) (by exact_mod_cast hres)

/-- C1, witness: brightness 150 at period 1000000, scale 255 and no floor gives 588235. -/
theorem compute_duty_cycle_exact_witness :
    compute_duty_cycle pb_1khz 150 = some (spec_duty_cycle pb_1khz 150) ∧
      spec_duty_cycle pb_1khz 150 = 588235 :=
  ⟨compute_duty_cycle_exact pb_1khz 150 (by decide) (by decide) (by decide) (by decide)
    (by decide) (by decide), by decide⟩

/-- C1, counterexample: at period 20000000 (a 50 Hz PWM), scale 255, no floor
and brightness 255 the product exceeds `2^32`; the code returns 3156990 where
the exact formula gives 20000000. -/
theorem compute_duty_cycle_exact_counterexample :
    pb_50hz.wf ∧ 0 < pb_50hz.scale ∧ pb_50hz.lth_brightness ≤ pb_50hz.period ∧
      (0 : Int) ≤ 255 ∧ (255 : Int) ≤ (pb_50hz.scale : Int) ∧
      spec_duty_cycle pb_50hz 255 = 20000000 ∧
      compute_duty_cycle pb_50hz 255 = some 3156990 ∧
      compute_duty_cycle pb_50hz 255 ≠ some (spec_duty_cycle pb_50hz 255) := by
  decide


/-- C2, as amended: with `scale > 0` and `lth_brightness <= period`,
`compute_duty_cycle(0)` is `lth_brightness` and `compute_duty_cycle(scale)` is
`period`, whenever `scale * (period - lth_brightness)` is below `2^32` and
`period` is below `2^31` (the ranges of the `unsigned int` arithmetic and of
the `int` result). -/
theorem compute_duty_cycle_end_points (pb : pwm_bl_data) (hs : 0 < pb.scale)
    (hl : pb.lth_brightness ≤ pb.period)
    (hprod : pb.scale * (pb.period - pb.lth_brightness) < 4294967296)
    (hp : pb.period < 2147483648) :
    compute_duty_cycle pb 0 = some (pb.lth_brightness : Int) ∧
      compute_duty_cycle pb (pb.scale : Int) = some (pb.period : Int) := by
  constructor
  · have h := compute_duty_cycle_natCast pb 0 hs hl (by simp) (by simp; omega)
    simpa using h
  · have hq : pb.scale * (pb.period - pb.lth_brightness) / pb.scale + pb.lth_brightness =
        pb.period := by
      rw [Nat.mul_div_cancel_left _ hs]
      exact Nat.sub_add_cancel hl
    have h := compute_duty_cycle_natCast pb pb.scale hs hl hprod (by rw [hq]; exact hp)
    rw [hq] at h
    exact h

/-- C2, witness: at period 1000000, scale 255 and floor 3921 the end points
are 3921 and 1000000. -/
theorem compute_duty_cycle_end_points_witness :
    compute_duty_cycle { pb_1khz with lth_brightness := 3921 } 0 = some 3921 ∧
      compute_duty_cycle { pb_1khz with lth_brightness := 3921 } 255 = some 1000000 :=
  compute_duty_cycle_end_points { pb_1khz with lth_brightness := 3921 } (by decide)
    (by decide) (by decide) (by decide)

/-- C2, counterexample: at period 20000000 (a 50 Hz PWM), scale 255 and no
floor, `compute_duty_cycle(scale)` is 3156990 and not the period. -/
theorem compute_duty_cycle_end_points_counterexample :
    pb_50hz.wf ∧ 0 < pb_50hz.scale ∧ pb_50hz.lth_brightness ≤ pb_50hz.period ∧
      compute_duty_cycle pb_50hz (pb_50hz.scale : Int) = some 3156990 ∧
      compute_duty_cycle pb_50hz (pb_50hz.scale : Int) ≠ some (pb_50hz.period : Int) := by
  decide

/-- C3, as amended: with `scale > 0` and `lth_brightness <= period`,
`compute_duty_cycle` is defined and non-decreasing at any two brightness
values `0 <= b1 <= b2 <= scale` for which `b2 * (period - lth_brightness)` is
below `2^32` and the exact duty cycle of `b2` is below `2^31`. -/
theorem compute_duty_cycle_monotone (pb : pwm_bl_data) (b1 b2 : Int)
    (hs : 0 < pb.scale) (hl : pb.lth_brightness ≤ pb.period)
    (h0 : 0 ≤ b1) (h12 : b1 ≤ b2) (h2 : b2 ≤ (pb.scale : Int))
    (hprod : b2 * ((pb.period : Int) - (pb.lth_brightness : Int)) < 4294967296)
    (hres : spec_duty_cycle pb b2 < 2147483648) :
    ∃ d1 d2, compute_duty_cycle pb b1 = some d1 ∧ compute_duty_cycle pb b2 = some d2 ∧
      d1 ≤ d2 := by
  obtain ⟨n1, rfl⟩ := Int.eq_ofNat_of_zero_le h0
  obtain ⟨n2, rfl⟩ := Int.eq_ofNat_of_zero_le (le_trans h0 h12)
  have h12n : n1 ≤ n2 := by exact_mod_cast h12
  rw [spec_duty_cycle_natCast pb n2 hl] at hres
  have hd : ((pb.period : Int) - (pb.lth_brightness : Int)) =
      ((pb.period - pb.lth_brightness : Nat) : Int) := by omega
  rw [hd, ← Int.natCast_mul] at hprod
  have hprod2 : n2 * (pb.period - pb.lth_brightness) < 4294967296 := by exact_mod_cast hprod
  have hres2 : n2 * (pb.period - pb.lth_brightness) / pb.scale + pb.lth_brightness <
      2147483648 := by exact_mod_cast hres
  have hmul : n1 * (pb.period - pb.lth_brightness) ≤ n2 * (pb.period - pb.lth_brightness) :=
    Nat.mul_le_mul_right _ h12n
  have hdiv : n1 * (pb.period - pb.lth_brightness) / pb.scale ≤
      n2 * (pb.period - pb.lth_brightness) / pb.scale := Nat.div_le_div_right hmul
  refine ⟨_, _, compute_duty_cycle_natCast pb n1 hs hl (lt_of_le_of_lt hmul hprod2)
    (lt_of_le_of_lt (Nat.add_le_add_right hdiv _) hres2),
    compute_duty_cycle_natCast pb n2 hs hl hprod2 hres2, ?_⟩
  exact_mod_cast Nat.add_le_add_right hdiv _

/-- C3, witness: at period 1000000, scale 255 and no floor, brightness 149 and
150 give 584313 and 588235. -/
theorem compute_duty_cycle_monotone_witness :
    ∃ d1 d2, compute_duty_cycle pb_1khz 149 = some d1 ∧
      compute_duty_cycle pb_1khz 150 = some d2 ∧ d1 ≤ d2 :=
  compute_duty_cycle_monotone pb_1khz 149 150 (by decide) (by decide) (by decide)
    (by decide) (by decide) (by decide) (by decide)

/-- C3, counterexample: at period 20000000 (a 50 Hz PWM), scale 255 and no
floor, brightness 214 gives 16784313 and brightness 215 gives 19736. -/
theorem compute_duty_cycle_monotone_counterexample :
    pb_50hz.wf ∧ 0 < pb_50hz.scale ∧ pb_50hz.lth_brightness ≤ pb_50hz.period ∧
      (0 : Int) ≤ 214 ∧ (214 : Int) ≤ 215 ∧ (215 : Int) ≤ (pb_50hz.scale : Int) ∧
      compute_duty_cycle pb_50hz 214 = some 16784313 ∧
      compute_duty_cycle pb_50hz 215 = some 19736 ∧
      ¬ (∃ d1 d2, compute_duty_cycle pb_50hz 214 = some d1 ∧
          compute_duty_cycle pb_50hz 215 = some d2 ∧ d1 ≤ d2) := by
  have h1 : compute_duty_cycle pb_50hz 214 = some 16784313 := by decide
  have h2 : compute_duty_cycle pb_50hz 215 = some 19736 := by decide
  refine ⟨by decide, by decide, by decide, by decide, by decide, by decide, h1, h2, ?_⟩
  rintro ⟨d1, d2, e1, e2, hle⟩
  rw [h1] at e1
  rw [h2] at e2
  cases e1
  cases e2
  exact absurd hle (by decide)

/-! ## Power sequencing -/

/-- C4, as amended: on an actual transition the calls are fixed.
`pwm_backlight_power_on` in state OFF sets the enable GPIO to 1 and then
enables the PWM, and ends ON; `pwm_backlight_power_off` in state ON, the
stored period being below `2^31`, configures the PWM with duty cycle 0 and the
stored period, then disables the PWM, then sets the enable GPIO to 0, and ends
OFF. -/
theorem power_transition_calls (p q : pwm_bl_data) (brightness : Int)
    (hp : p.enabled = false) (hq : q.enabled = true) (hper : q.period < 2147483648) :
    pwm_backlight_power_on p brightness =
        ({ p with enabled := true },
          [Call.gpio_set_value p.enable_gpio_hd 1, Call.pwm_enable]) ∧
      pwm_backlight_power_off q =
        ({ q with enabled := false },
          [Call.pwm_config 0 (q.period : Int), Call.pwm_disable,
           Call.gpio_set_value q.enable_gpio_hd 0]) := by
  simp [pwm_backlight_power_on, pwm_backlight_power_off, hp, hq, to_int_of_lt _ hper]

/-- C4, witness: the two transitions of the 1 kHz board. -/
theorem power_transition_calls_witness :
    (pwm_backlight_power_on pb_1khz 150).2 = [Call.gpio_set_value 11 1, Call.pwm_enable] ∧
      (pwm_backlight_power_off { pb_1khz with enabled := true }).2 =
        [Call.pwm_config 0 1000000, Call.pwm_disable, Call.gpio_set_value 11 0] :=
  have h := power_transition_calls pb_1khz { pb_1khz with enabled := true } 150 rfl rfl
    (by decide)
  ⟨congrArg Prod.snd h.1, congrArg Prod.snd h.2⟩

/-- C4, counterexample: in state ON with the stored period 3000000000,
`pwm_backlight_power_off` hands `pwm_config` the period -1294967296, the
stored period converted to `int`.  Such a period is reached by attachment: a
key/value store with `pwm_freq = -3` attaches a device in state ON with period
3961633963, whose power-off hands `pwm_config` the period -333333333. -/
theorem power_transition_calls_counterexample :
    (pb_slow_on.wf ∧ pb_slow_on.enabled = true ∧ pb_slow_on.period = 3000000000 ∧
      (pwm_backlight_power_off pb_slow_on).2 =
        [Call.pwm_config 0 (-1294967296), Call.pwm_disable, Call.gpio_set_value 11 0] ∧
      (pwm_backlight_power_off pb_slow_on).2 ≠
        [Call.pwm_config 0 (pb_slow_on.period : Int), Call.pwm_disable,
          Call.gpio_set_value pb_slow_on.enable_gpio_hd 0]) ∧
    (Option.map
        (fun bl : backlight_device =>
          (bl.data.enabled, bl.data.period, (pwm_backlight_power_off bl.data).2))
        (Option.bind (pwm_backlight_probe env_neg_freq none) (fun r => r.bl)) =
      some (true, 3961633963,
        [Call.pwm_config 0 (-333333333), Call.pwm_disable, Call.gpio_set_value 11 0])) := by
  decide

/-- C5: the power transitions are idempotent.  In state ON
`pwm_backlight_power_on`, with any brightness, makes no call and returns the
driver data as it was; in state OFF `pwm_backlight_power_off` makes no call and
returns the driver data as it was. -/
theorem power_transition_idempotent (p q : pwm_bl_data) (brightness : Int)
    (hp : p.enabled = true) (hq : q.enabled = false) :
    pwm_backlight_power_on p brightness = (p, []) ∧ pwm_backlight_power_off q = (q, []) := by
  simp [pwm_backlight_power_on, pwm_backlight_power_off, hp, hq]

/-- C5, witness: the 1 kHz board, switched on and switched off. -/
theorem power_transition_idempotent_witness :
    pwm_backlight_power_on { pb_1khz with enabled := true } 150 =
        ({ pb_1khz with enabled := true }, []) ∧
      pwm_backlight_power_off pb_1khz = (pb_1khz, []) :=
  power_transition_idempotent { pb_1khz with enabled := true } pb_1khz 150 rfl rfl

/-! ## Brightness update -/

theorem is_blanked_eq_true_iff (props : backlight_properties) :
    is_blanked props = true ↔
      (props.power ≠ FB_BLANK_UNBLANK ∨ props.fb_blank ≠ FB_BLANK_UNBLANK ∨
        props.state &&& BL_CORE_FBBLANK ≠ 0) := by
  simp [is_blanked, or_assoc]

theorem update_status_of_not_pos (bl : backlight_device) (h : ¬ 0 < effective_brightness bl) :
    pwm_backlight_update_status bl =
      some { bl := { bl with data := (pwm_backlight_power_off bl.data).1,
                             notify_seq := notify_seq_after bl },
             calls := notify_calls bl ++ (pwm_backlight_power_off bl.data).2 ++
               notify_after_calls bl.data (effective_brightness bl),
             ret := 0 } := by
  unfold effective_brightness at h
  unfold pwm_backlight_update_status notify_calls effective_brightness
  cases hn : bl.data.notify with
  | none =>
    simp only [hn, gt_iff_lt] at h ⊢
    rw [if_neg h]
  | some f =>
    simp only [hn, gt_iff_lt] at h ⊢
    rw [if_neg h]

theorem update_status_of_pos (bl : backlight_device) (d : Int)
    (h : 0 < effective_brightness bl)
    (hd : compute_duty_cycle bl.data (effective_brightness bl) = some d) :
    pwm_backlight_update_status bl =
      some { bl := { bl with
                     data := (pwm_backlight_power_on bl.data (effective_brightness bl)).1,
                     notify_seq := notify_seq_after bl },
             calls := notify_calls bl ++ [Call.pwm_config d (to_int bl.data.period)] ++
               (pwm_backlight_power_on bl.data (effective_brightness bl)).2 ++
               notify_after_calls bl.data (effective_brightness bl),
             ret := 0 } := by
  unfold effective_brightness at h hd
  unfold pwm_backlight_update_status notify_calls effective_brightness
  cases hn : bl.data.notify with
  | none =>
    simp only [hn, gt_iff_lt] at h hd ⊢
    rw [if_pos h, hd]
  | some f =>
    simp only [hn, gt_iff_lt] at h hd ⊢
    rw [if_pos h, hd]

theorem power_off_enabled (pb : pwm_bl_data) : (pwm_backlight_power_off pb).1.enabled = false := by
  unfold pwm_backlight_power_off
  cases h : pb.enabled <;> simp [h]

theorem power_on_enabled (pb : pwm_bl_data) (b : Int) :
    (pwm_backlight_power_on pb b).1.enabled = true := by
  unfold pwm_backlight_power_on
  cases h : pb.enabled <;> simp [h]

/-- C6, as amended: for every controller state, ON or OFF, and every
configuration in which no `notify` hook is installed or the installed hook
returns a value `<= 0` for the brightness 0 (at the call the update makes),
`pwm_backlight_update_status` returns 0 and ends in state OFF, the properties untouched, both when the
device is blanked (whatever brightness is requested) and when the requested
brightness is 0. -/
theorem update_status_off (bl : backlight_device)
    (hhook : ∀ f, bl.data.notify = some f → f bl.notify_seq 0 ≤ 0)
    (h : (bl.props.power ≠ FB_BLANK_UNBLANK ∨ bl.props.fb_blank ≠ FB_BLANK_UNBLANK ∨
          bl.props.state &&& BL_CORE_FBBLANK ≠ 0) ∨ bl.props.brightness = 0) :
    ∃ out, pwm_backlight_update_status bl = some out ∧ out.bl.data.enabled = false ∧
      out.ret = 0 ∧ out.bl.props = bl.props := by
  have hb : (if is_blanked bl.props then (0 : Int) else bl.props.brightness) = 0 := by
    rcases h with h | h
    · rw [if_pos ((is_blanked_eq_true_iff _).2 h)]
    · rw [h]; simp
  have he : ¬ 0 < effective_brightness bl := by
    unfold effective_brightness
    cases hn : bl.data.notify with
    | none => simp only [hb]; decide
    | some f => simp only [hb]; exact not_lt.2 (hhook f hn)
  exact ⟨_, update_status_of_not_pos bl he, power_off_enabled _, rfl, rfl⟩

/-- C6, witness: the 1 kHz board switched on, without hooks, is OFF after an
update of a powered-down device that requests brightness 150. -/
theorem update_status_off_witness :
    ∃ out, pwm_backlight_update_status
        { props := props_powerdown 150, data := { pb_1khz with enabled := true },
          notify_seq := 0 } = some out ∧
      out.bl.data.enabled = false ∧ out.ret = 0 ∧ out.bl.props = props_powerdown 150 :=
  update_status_off
    { props := props_powerdown 150, data := { pb_1khz with enabled := true }, notify_seq := 0 }
    (by intro f hf; cases hf) (Or.inl (Or.inl (by decide)))

/-- C6, counterexample: with a `notify` hook that keeps a minimum level of 10,
an update that requests brightness 0 on a device that is not blanked, and an
update of a powered-down device, both end in state ON. -/
theorem update_status_off_counterexample :
    (is_blanked (props_unblanked 0) = false ∧ (props_unblanked 0).brightness = 0 ∧
      (pwm_backlight_update_status
          { props := props_unblanked 0,
            data := { pb_1khz with notify := some notify_min_level },
            notify_seq := 0 }).map
        (fun out => (out.bl.data.enabled, out.calls)) =
        some (true, [Call.notify_hook 0, Call.pwm_config 39215 1000000,
          Call.gpio_set_value 11 1, Call.pwm_enable])) ∧
    (is_blanked (props_powerdown 150) = true ∧
      (pwm_backlight_update_status
          { props := props_powerdown 150,
            data := { pb_1khz with notify := some notify_min_level },
            notify_seq := 0 }).map
        (fun out => (out.bl.data.enabled, out.calls)) =
        some (true, [Call.notify_hook 0, Call.pwm_config 39215 1000000,
          Call.gpio_set_value 11 1, Call.pwm_enable])) := by
  decide

/-- C7, as amended: for every controller state with `scale > 0` and
`period < 2^31` and every update of a device that is not blanked whose
effective brightness `b` (the requested brightness, or what the `notify` hook
returns for it when one is installed) is `> 0`, `pwm_backlight_update_status`
calls the `notify` hook if installed, configures the PWM with
`(compute_duty_cycle(b), period)`, runs `pwm_backlight_power_on`, calls the
`notify_after` hook if installed, ends in state ON and returns 0.  With period
1000000, scale 255, no floor and brightness 150 the duty cycle is 588235. -/
theorem update_status_on (bl : backlight_device) (hs : 0 < bl.data.scale)
    (hper : bl.data.period < 2147483648)
    (_hblank : is_blanked bl.props = false) (hb : 0 < effective_brightness bl) :
    (∃ d out, compute_duty_cycle bl.data (effective_brightness bl) = some d ∧
      pwm_backlight_update_status bl = some out ∧
      out.calls = notify_calls bl ++ [Call.pwm_config d (bl.data.period : Int)] ++
        (pwm_backlight_power_on bl.data (effective_brightness bl)).2 ++
        notify_after_calls bl.data (effective_brightness bl) ∧
      out.bl.data = (pwm_backlight_power_on bl.data (effective_brightness bl)).1 ∧
      out.bl.data.enabled = true ∧ out.bl.props = bl.props ∧ out.ret = 0) ∧
    (∀ pb : pwm_bl_data, pb.period = 1000000 → pb.scale = 255 → pb.lth_brightness = 0 →
      compute_duty_cycle pb 150 = some 588235) := by
  constructor
  · have hd : ∃ d, compute_duty_cycle bl.data (effective_brightness bl) = some d := by
      unfold compute_duty_cycle
      simp only [if_neg (Nat.pos_iff_ne_zero.1 hs)]
      exact ⟨_, rfl⟩
    obtain ⟨d, hd⟩ := hd
    refine ⟨d, _, hd, update_status_of_pos bl d hb hd, ?_, rfl, power_on_enabled _ _, rfl, rfl⟩
    rw [to_int_of_lt _ hper]
  · intro pb h1 h2 h3
    unfold compute_duty_cycle
    rw [h1, h2, h3]
    decide

/-- C7, witness: the 1 kHz board in state OFF, brightness 150 requested. -/
theorem update_status_on_witness :
    (∃ d out, compute_duty_cycle pb_1khz
        (effective_brightness
          { props := props_unblanked 150, data := pb_1khz, notify_seq := 0 }) = some d ∧
      pwm_backlight_update_status
        { props := props_unblanked 150, data := pb_1khz, notify_seq := 0 } = some out ∧
      out.calls =
        notify_calls { props := props_unblanked 150, data := pb_1khz, notify_seq := 0 } ++
        [Call.pwm_config d (pb_1khz.period : Int)] ++
        (pwm_backlight_power_on pb_1khz
          (effective_brightness
            { props := props_unblanked 150, data := pb_1khz, notify_seq := 0 })).2 ++
        notify_after_calls pb_1khz
          (effective_brightness
            { props := props_unblanked 150, data := pb_1khz, notify_seq := 0 }) ∧
      out.bl.data = (pwm_backlight_power_on pb_1khz
        (effective_brightness
          { props := props_unblanked 150, data := pb_1khz, notify_seq := 0 })).1 ∧
      out.bl.data.enabled = true ∧ out.bl.props = props_unblanked 150 ∧ out.ret = 0) ∧
    (pwm_backlight_update_status
        { props := props_unblanked 150, data := pb_1khz, notify_seq := 0 }).map
        (fun out => out.calls) =
      some [Call.pwm_config 588235 1000000, Call.gpio_set_value 11 1, Call.pwm_enable] :=
  ⟨(update_status_on { props := props_unblanked 150, data := pb_1khz, notify_seq := 0 }
      (by decide) (by decide) (by decide) (by decide)).1, by decide⟩

/-- C7, counterexample: in state OFF with scale 255 and the stored period
3000000000, an update of a device that is not blanked with brightness 1
configures the PWM with `(11764705, -1294967296)`: the duty cycle is
`compute_duty_cycle(1)`, the period is the stored one converted to `int`.
Attachment reaches such a state and makes such a call itself: with
`pwm_freq = -3` in the key/value store the probe stores the period 3961633963
and its first update configures the PWM with the period -333333333. -/
theorem update_status_on_counterexample :
    (is_blanked (props_unblanked 1) = false ∧
      0 < effective_brightness { sys_slow.bl with props := props_unblanked 1 } ∧
      0 < sys_slow.bl.data.scale ∧
      sys_slow.bl.data.period = 3000000000 ∧
      compute_duty_cycle sys_slow.bl.data 1 = some 11764705 ∧
      (pwm_backlight_update_status { sys_slow.bl with props := props_unblanked 1 }).map
          (fun out => out.calls) =
        some [Call.pwm_config 11764705 (-1294967296), Call.gpio_set_value 11 1,
          Call.pwm_enable] ∧
      (pwm_backlight_update_status { sys_slow.bl with props := props_unblanked 1 }).map
          (fun out => out.calls) ≠
        some [Call.pwm_config 11764705 (sys_slow.bl.data.period : Int),
          Call.gpio_set_value 11 1, Call.pwm_enable]) ∧
    ((pwm_backlight_probe env_neg_freq none).map
        (fun r => (r.ret, r.bl.map (fun bl => bl.data.period), r.calls)) =
      some (0, some 3961633963,
        [Call.gpio_request 10, Call.gpio_direction_output 10 1, Call.gpio_request 11,
          Call.gpio_direction_output 11 0, Call.pwm_request 0,
          Call.pwm_set_period 3961633963, Call.pwm_set_polarity 0,
          Call.backlight_device_register, Call.pwm_config 4025117 (-333333333),
          Call.gpio_set_value 11 1, Call.pwm_enable])) := by
  decide

/-! ## The driver on its devices -/

theorem power_on_fst (pb : pwm_bl_data) (b : Int) :
    (pwm_backlight_power_on pb b).1 = { pb with enabled := true } := by
  unfold pwm_backlight_power_on
  cases pb with
  | mk period lth enabled hd lcd scale legacy notify notify_after check_fb exit =>
    cases enabled <;> rfl

theorem power_off_fst (pb : pwm_bl_data) :
    (pwm_backlight_power_off pb).1 = { pb with enabled := false } := by
  unfold pwm_backlight_power_off
  cases pb with
  | mk period lth enabled hd lcd scale legacy notify notify_after check_fb exit =>
    cases enabled <;> rfl

theorem hw_run_append (h : Hw) (a b : List Call) : h.run (a ++ b) = (h.run a).run b := by
  unfold Hw.run
  exact List.foldl_append _ _ _ _

theorem hw_run_notify_calls (h : Hw) (bl : backlight_device) : h.run (notify_calls bl) = h := by
  unfold notify_calls
  cases bl.data.notify <;> rfl

theorem hw_run_notify_after_calls (h : Hw) (pb : pwm_bl_data) (b : Int) :
    h.run (notify_after_calls pb b) = h := by
  unfold notify_after_calls
  cases pb.notify_after <;> rfl

theorem hw_run_hooks (h : Hw) (bl : backlight_device) (pb : pwm_bl_data) (b : Int)
    (mid : List Call) :
    h.run (notify_calls bl ++ mid ++ notify_after_calls pb b) = h.run mid := by
  rw [hw_run_append, hw_run_append, hw_run_notify_calls, hw_run_notify_after_calls]

theorem hw_run_hooks_on (h : Hw) (bl : backlight_device) (pb : pwm_bl_data) (b : Int)
    (c : Call) (mid : List Call) :
    h.run (notify_calls bl ++ [c] ++ mid ++ notify_after_calls pb b) = h.run ([c] ++ mid) := by
  rw [List.append_assoc (notify_calls bl)]
  exact hw_run_hooks _ _ _ _ _

theorem hw_run_power_on (h : Hw) (pb : pwm_bl_data) (b d p : Int) :
    (h.run ([Call.pwm_config d p] ++ (pwm_backlight_power_on pb b).2)).pwm_duty_ns = d ∧
    (h.run ([Call.pwm_config d p] ++ (pwm_backlight_power_on pb b).2)).pwm_period_ns = p ∧
    (pb.enabled = true →
      (h.run ([Call.pwm_config d p] ++ (pwm_backlight_power_on pb b).2)).gpio = h.gpio ∧
      (h.run ([Call.pwm_config d p] ++ (pwm_backlight_power_on pb b).2)).pwm_enabled =
        h.pwm_enabled) ∧
    (pb.enabled = false →
      (h.run ([Call.pwm_config d p] ++
        (pwm_backlight_power_on pb b).2)).gpio pb.enable_gpio_hd = 1 ∧
      (h.run ([Call.pwm_config d p] ++ (pwm_backlight_power_on pb b).2)).pwm_enabled =
        true) := by
  unfold pwm_backlight_power_on
  cases he : pb.enabled <;> simp [Hw.run, Hw.apply]

theorem hw_run_power_off (h : Hw) (pb : pwm_bl_data) :
    (pb.enabled = false → h.run (pwm_backlight_power_off pb).2 = h) ∧
    (pb.enabled = true →
      (h.run (pwm_backlight_power_off pb).2).gpio pb.enable_gpio_hd = 0 ∧
      (h.run (pwm_backlight_power_off pb).2).pwm_enabled = false ∧
      (h.run (pwm_backlight_power_off pb).2).pwm_duty_ns = 0) := by
  unfold pwm_backlight_power_off
  cases he : pb.enabled <;> simp [Hw.run, Hw.apply]

theorem update_status_eq_none_of_pos (bl : backlight_device)
    (h : 0 < effective_brightness bl)
    (hd : compute_duty_cycle bl.data (effective_brightness bl) = none) :
    pwm_backlight_update_status bl = none := by
  unfold effective_brightness at h hd
  unfold pwm_backlight_update_status
  cases hn : bl.data.notify with
  | none =>
    simp only [hn, gt_iff_lt] at h hd ⊢
    rw [if_pos h, hd]
  | some f =>
    simp only [hn, gt_iff_lt] at h hd ⊢
    rw [if_pos h, hd]

theorem resume_eq_update_status (bl : backlight_device) :
    pwm_backlight_resume bl = pwm_backlight_update_status bl := by
  unfold pwm_backlight_resume backlight_update_status
  by_cases h : 0 < effective_brightness bl
  · cases hd : compute_duty_cycle bl.data (effective_brightness bl) with
    | none => rw [update_status_eq_none_of_pos bl h hd]
    | some d => rw [update_status_of_pos bl d h hd]
  · rw [update_status_of_not_pos bl h]

theorem hw_run_suspend (h : Hw) (bl : backlight_device) :
    h.run (pwm_backlight_suspend bl).calls = h.run (pwm_backlight_power_off bl.data).2 := by
  unfold pwm_backlight_suspend
  simp only
  have hpre : ∀ h0 : Hw, h0.run (match bl.data.notify with
      | some _ => [Call.notify_hook 0]
      | none => []) = h0 := by
    intro h0
    cases bl.data.notify <;> rfl
  rw [hw_run_append, hw_run_append, hpre, hw_run_notify_after_calls]

/-- The two shapes of a step of the system: a switch-off step, whose device
calls are those of `pwm_backlight_power_off`, and a switch-on step, whose
device calls are a PWM configuration followed by those of
`pwm_backlight_power_on`. -/
theorem sys_step_cases (s t : Sys) (op : Op) (h : s.step op = some t) :
    (t.bl.data = (pwm_backlight_power_off s.bl.data).1 ∧
      t.hw = s.hw.run (pwm_backlight_power_off s.bl.data).2) ∨
    (∃ b d p, t.bl.data = (pwm_backlight_power_on s.bl.data b).1 ∧
      t.hw = s.hw.run ([Call.pwm_config d p] ++ (pwm_backlight_power_on s.bl.data b).2)) := by
  have key : ∀ bl : backlight_device, bl.data = s.bl.data →
      ∀ out, pwm_backlight_update_status bl = some out →
        t = { bl := out.bl, hw := s.hw.run out.calls } →
      (t.bl.data = (pwm_backlight_power_off s.bl.data).1 ∧
        t.hw = s.hw.run (pwm_backlight_power_off s.bl.data).2) ∨
      (∃ b d p, t.bl.data = (pwm_backlight_power_on s.bl.data b).1 ∧
        t.hw = s.hw.run ([Call.pwm_config d p] ++
          (pwm_backlight_power_on s.bl.data b).2)) := by
    intro bl hbl out hout ht
    by_cases hpos : 0 < effective_brightness bl
    · cases hd : compute_duty_cycle bl.data (effective_brightness bl) with
      | none =>
        rw [update_status_eq_none_of_pos bl hpos hd] at hout
        cases hout
      | some d =>
        rw [update_status_of_pos bl d hpos hd] at hout
        cases hout
        right
        refine ⟨effective_brightness bl, d, to_int bl.data.period, ?_, ?_⟩
        · rw [ht, ← hbl]
        · rw [ht, ← hbl]
          exact hw_run_hooks_on _ _ _ _ _ _
    · rw [update_status_of_not_pos bl hpos] at hout
      cases hout
      left
      refine ⟨?_, ?_⟩
      · rw [ht, ← hbl]
      · rw [ht, ← hbl]
        exact hw_run_hooks _ _ _ _ _
  cases op with
  | update props =>
    simp only [Sys.step] at h
    cases hu : pwm_backlight_update_status { s.bl with props := props } with
    | none => rw [hu] at h; cases h
    | some out =>
      rw [hu] at h
      exact key { s.bl with props := props } rfl out hu (Option.some.inj h).symm
  | suspend =>
    simp only [Sys.step, Option.some.injEq] at h
    left
    subst h
    exact ⟨rfl, hw_run_suspend _ _⟩
  | resume =>
    simp only [Sys.step] at h
    rw [resume_eq_update_status] at h
    cases hu : pwm_backlight_update_status s.bl with
    | none => rw [hu] at h; cases h
    | some out =>
      rw [hu] at h
      exact key s.bl rfl out hu (Option.some.inj h).symm
  | shutdown =>
    simp only [Sys.step, Option.some.injEq] at h
    left
    subst h
    exact ⟨rfl, rfl⟩

theorem sys_step_inv (s t : Sys) (op : Op) (hinv : s.inv) (h : s.step op = some t) : t.inv := by
  obtain ⟨hon, hoff⟩ := hinv
  rcases sys_step_cases s t op h with ⟨hd, hh⟩ | ⟨b, d, p, hd, hh⟩
  · have hoffs := hw_run_power_off s.hw s.bl.data
    unfold Sys.inv
    rw [hd, hh, power_off_fst]
    refine ⟨fun hc => Bool.noConfusion hc, fun _ => ?_⟩
    cases he : s.bl.data.enabled with
    | false =>
      rw [hoffs.1 he]
      exact hoff he
    | true => exact hoffs.2 he
  · have hons := hw_run_power_on s.hw s.bl.data b d p
    unfold Sys.inv
    rw [hd, hh, power_on_fst]
    refine ⟨fun _ => ?_, fun hc => Bool.noConfusion hc⟩
    cases he : s.bl.data.enabled with
    | false => exact hons.2.2.2 he
    | true =>
      obtain ⟨hg, hp⟩ := hons.2.2.1 he
      rw [hg, hp]
      exact hon he

theorem sys_run_ops_inv (ops : List Op) (s t : Sys) (hinv : s.inv)
    (h : s.run_ops ops = some t) : t.inv := by
  induction ops generalizing s with
  | nil =>
    simp only [Sys.run_ops, Option.some.injEq] at h
    rw [← h]
    exact hinv
  | cons op ops ih =>
    simp only [Sys.run_ops] at h
    cases hs : s.step op with
    | none => rw [hs] at h; cases h
    | some s1 =>
      rw [hs] at h
      exact ih s1 (sys_step_inv s s1 op hinv hs) h

/-! ## Suspend and resume -/

theorem update_status_scale (bl : backlight_device) (out : Outcome)
    (h : pwm_backlight_update_status bl = some out) : out.bl.data.scale = bl.data.scale := by
  by_cases hpos : 0 < effective_brightness bl
  · cases hd : compute_duty_cycle bl.data (effective_brightness bl) with
    | none =>
      rw [update_status_eq_none_of_pos bl hpos hd] at h
      cases h
    | some d =>
      rw [update_status_of_pos bl d hpos hd] at h
      cases h
      show (pwm_backlight_power_on _ _).1.scale = _
      rw [power_on_fst]
  · rw [update_status_of_not_pos bl hpos] at h
    cases h
    show (pwm_backlight_power_off _).1.scale = _
    rw [power_off_fst]

theorem probe_after_pwm_scale (env : ProbeEnv) (data : platform_pwm_backlight_data)
    (pb : pwm_bl_data) (calls : List Call) (r : ProbeResult) (bl : backlight_device)
    (h : probe_after_pwm env data pb calls = some r) (hbl : r.bl = some bl) :
    0 < pb.scale ∧ bl.data.scale = pb.scale := by
  unfold probe_after_pwm at h
  simp only at h
  by_cases hsc : pb.scale = 0
  · rw [if_pos hsc] at h
    cases h
  · rw [if_neg hsc] at h
    cases he : env.register_err with
    | some e =>
      rw [he] at h
      simp only [Option.some.injEq] at h
      rw [← h] at hbl
      cases hbl
    | none =>
      rw [he] at h
      simp only [backlight_update_status] at h
      split at h
      · cases h
      · rename_i out hout
        simp only [Option.some.injEq] at h
        rw [← h] at hbl
        simp only [Option.some.injEq] at hbl
        rw [← hbl, update_status_scale _ _ hout]
        exact ⟨Nat.pos_of_ne_zero hsc, rfl⟩

theorem probe_after_lcd_power_scale (env : ProbeEnv) (data : platform_pwm_backlight_data)
    (pb : pwm_bl_data) (calls : List Call) (r : ProbeResult) (bl : backlight_device)
    (h : probe_after_lcd_power env data pb calls = some r) (hbl : r.bl = some bl) :
    0 < pb.scale ∧ bl.data.scale = pb.scale := by
  unfold probe_after_lcd_power at h
  simp only at h
  split at h
  · simp only [Option.some.injEq] at h
    rw [← h] at hbl
    cases hbl
  · cases he : env.pwm_request_err with
    | some e =>
      rw [he] at h
      simp only [Option.some.injEq] at h
      rw [← h] at hbl
      cases hbl
    | none =>
      rw [he] at h
      simp only at h
      have hp := probe_after_pwm_scale _ _ _ _ r bl h hbl
      by_cases hv : env.gpio_is_valid data.enable_gpio = true
      · simpa [hv] using hp
      · simpa [hv] using hp

/-- Every device the probe attaches has `scale > 0`: the probe divides by
`pb->scale` before it registers the device. -/
theorem probe_scale_pos (env : ProbeEnv) (pdata : Option platform_pwm_backlight_data)
    (r : ProbeResult) (bl : backlight_device)
    (h : pwm_backlight_probe env pdata = some r) (hbl : r.bl = some bl) :
    0 < bl.data.scale := by
  unfold pwm_backlight_probe at h
  simp only at h
  split at h
  · cases h
  · rename_i data hdata
    split at h
    · simp only [Option.some.injEq] at h
      rw [← h] at hbl
      cases hbl
    · split at h
      · simp only [Option.some.injEq] at h
        rw [← h] at hbl
        cases hbl
      · split at h
        · simp only [Option.some.injEq] at h
          rw [← h] at hbl
          cases hbl
        · have hp := probe_after_lcd_power_scale _ _ _ _ r bl h hbl
          rw [hp.2]
          exact hp.1

theorem sys_step_scale (s t : Sys) (op : Op) (h : s.step op = some t) :
    t.bl.data.scale = s.bl.data.scale := by
  rcases sys_step_cases s t op h with ⟨hd, _⟩ | ⟨b, d, p, hd, _⟩
  · rw [hd, power_off_fst]
  · rw [hd, power_on_fst]

/-- Every state the attached driver goes through has `scale > 0`: no entry
point writes `scale`. -/
theorem sys_run_ops_scale (ops : List Op) (s t : Sys) (h : s.run_ops ops = some t) :
    t.bl.data.scale = s.bl.data.scale := by
  induction ops generalizing s with
  | nil =>
    simp only [Sys.run_ops, Option.some.injEq] at h
    rw [← h]
  | cons op ops ih =>
    simp only [Sys.run_ops] at h
    cases hs : s.step op with
    | none => rw [hs] at h; cases h
    | some s1 =>
      rw [hs] at h
      rw [ih s1 h, sys_step_scale s s1 op hs]

/-- C9, the code at three failing attachments of a board with the panel power
on line 10 and the backlight enable on line 11.  When `pwm_request` fails, the
probe returns `-ENODEV` having requested lines 10 and 11 and freed line 11
only.  When the request of line 10 fails, the probe returns `-EBUSY` having
freed line 11, which it never requested.  When the registration fails, the
probe returns `-ENOMEM` having freed line 11 only: line 10 and the PWM channel
stay acquired, while `pwm_backlight_remove` does free the PWM channel. -/
theorem probe_error_paths_release :
    ((pwm_backlight_probe env_pwm_fails (some board_data)).map
        (fun r => (r.ret, r.calls, r.bl.isSome)) =
      some (-19, [Call.gpio_request 10, Call.gpio_direction_output 10 1,
        Call.gpio_request 11, Call.gpio_direction_output 11 0, Call.pwm_request 0,
        Call.gpio_free 11], false) ∧
      (pwm_backlight_probe env_pwm_fails (some board_data)).map
        (fun r => (requested_gpios r.calls, freed_gpios r.calls)) = some ([10, 11], [11])) ∧
    ((pwm_backlight_probe env_lcd_power_fails (some board_data)).map
        (fun r => (r.ret, r.calls, r.bl.isSome)) =
      some (-16, [Call.gpio_request 10, Call.gpio_free 11], false)) ∧
    ((pwm_backlight_probe env_register_fails (some board_data)).map
        (fun r => (r.ret, r.calls, r.bl.isSome)) =
      some (-12, [Call.gpio_request 10, Call.gpio_direction_output 10 1,
        Call.gpio_request 11, Call.gpio_direction_output 11 0, Call.pwm_request 0,
        Call.pwm_set_period 1000000, Call.pwm_set_polarity 1,
        Call.backlight_device_register, Call.gpio_free 11], false)) ∧
    ((pwm_backlight_remove
        { props := props_unblanked 150, data := { pb_1khz with enabled := true },
          notify_seq := 0 }).calls =
      [Call.backlight_device_unregister, Call.pwm_config 0 1000000, Call.pwm_disable,
        Call.gpio_set_value 11 0, Call.pwm_free]) := by
  decide

/-! ## The state invariant -/

/-- C10, as amended: from a state set up at attachment with `enabled = false`,
the enable GPIO driven 0, the PWM output not enabled and the PWM duty cycle 0,
every state reached by a sequence of update, suspend, resume and shutdown
calls satisfies: `enabled = true` implies that the enable GPIO is 1 and the
PWM output is enabled, and `enabled = false` implies that the enable GPIO is
0, the PWM output is disabled and its configured duty cycle is 0. -/
theorem state_invariant_reachable (s0 s : Sys) (ops : List Op)
    (h0 : s0.bl.data.enabled = false ∧ s0.hw.gpio s0.bl.data.enable_gpio_hd = 0 ∧
      s0.hw.pwm_enabled = false)
    (hduty : s0.hw.pwm_duty_ns = 0) (hrun : s0.run_ops ops = some s) :
    (s.bl.data.enabled = true →
      s.hw.gpio s.bl.data.enable_gpio_hd = 1 ∧ s.hw.pwm_enabled = true) ∧
    (s.bl.data.enabled = false →
      s.hw.gpio s.bl.data.enable_gpio_hd = 0 ∧ s.hw.pwm_enabled = false ∧
        s.hw.pwm_duty_ns = 0) := by
  have hinv : s0.inv := by
    refine ⟨fun ht => ?_, fun _ => ⟨h0.2.1, h0.2.2, hduty⟩⟩
    rw [h0.1] at ht
    cases ht
  exact sys_run_ops_inv ops s0 s hinv hrun

/-- C10, witness: the 1 kHz board through an update to brightness 150, a
suspend, a resume, an update of a powered-down device and a shutdown. -/
theorem state_invariant_reachable_witness :
    ∃ s, sys_1khz.run_ops [Op.update (props_unblanked 150), Op.suspend, Op.resume,
        Op.update (props_powerdown 150), Op.shutdown] = some s ∧
      (s.bl.data.enabled = true →
        s.hw.gpio s.bl.data.enable_gpio_hd = 1 ∧ s.hw.pwm_enabled = true) ∧
      (s.bl.data.enabled = false →
        s.hw.gpio s.bl.data.enable_gpio_hd = 0 ∧ s.hw.pwm_enabled = false ∧
          s.hw.pwm_duty_ns = 0) := by
  obtain ⟨s, hs⟩ := Option.isSome_iff_exists.1
    (show (sys_1khz.run_ops [Op.update (props_unblanked 150), Op.suspend, Op.resume,
      Op.update (props_powerdown 150), Op.shutdown]).isSome = true by decide)
  exact ⟨s, hs, state_invariant_reachable sys_1khz s _ (by decide) (by decide) hs⟩

/-- C10, counterexample: the 1 kHz board attached in state OFF, the enable
GPIO at 0 and the PWM output disabled, on a PWM device whose duty cycle is
500000.  An update that requests brightness 0 makes no device call; the state
reached has `enabled = false` and duty cycle 500000. -/
theorem state_invariant_reachable_counterexample :
    sys_stale_duty.attached ∧
      (sys_stale_duty.run_ops [Op.update (props_unblanked 0)]).map
        (fun s => (s.bl.data.enabled, s.hw.gpio s.bl.data.enable_gpio_hd, s.hw.pwm_enabled,
          s.hw.pwm_duty_ns)) = some (false, 0, false, 500000) ∧
      (sys_stale_duty.run_ops [Op.update (props_unblanked 0)]).map
        (fun s => decide s.inv) = some false := by
  decide

end SunxiPwmBl
